import Mathlib

/-!
Verification of the Obscurion QA automation repository.

The repository holds three Python test drivers:
  * `artifacts/test-results/comprehensive_test_suite.py` — an HTTP API suite
    (modelled below in namespace `ApiSuite`);
  * `artifacts/comprehensive_qa_test.py` — a Selenium browser suite
    (namespace `SeleniumSuite`);
  * `artifacts/qa_test_playwright.py` — a Playwright browser suite
    (namespace `PlaywrightSuite`).

The suites are sequential glue around external I/O (HTTP requests, browser
drivers).  The embedding makes the external world explicit: the outcome of an
HTTP request is a value of type `HttpOutcome` supplied as an argument, file
writes are modelled by the list of report files a report generator emits, and
the in-memory tallies (`TestSuite`, `QAState`) are threaded explicitly through
the functions that the Python code runs as mutations of shared objects.
-/

namespace Obscurion

/-- JSON values, as produced by `response.json()` in the Python `requests`
library.  Numbers are modelled as rationals. -/
inductive Json where
  | null
  | bool (b : Bool)
  | num (q : ℚ)
  | str (s : String)
  | arr (elems : List Json)
  | obj (fields : List (String × Json))

/-- Values a Python response validator (`check_response`) can return: the
health-check validator returns a `bool`, and `run_test` also accepts a string
result (used verbatim as the notes field) or `None`. -/
inductive PyValue where
  | vbool (b : Bool)
  | vstr (s : String)
  | vnone

/-- Python truthiness of a validator result, used by the
`if not validation_result` test in `run_test` (line 109 of
`comprehensive_test_suite.py`): `False`, the empty string and `None` are
falsy. -/
def truthy : PyValue → Bool
  | .vbool b => b
  | .vstr s => !s.isEmpty
  | .vnone => false

/-- Outcome of an HTTP request issued with the `requests` library: either a
response carrying its status code, its text, and the result of parsing the
body as JSON (`none` models `response.json()` raising), or a
`requests.exceptions.RequestException` carrying its message. -/
inductive HttpOutcome where
  | success (status : Nat) (text : String) (json : Option Json)
  | failure (err : String)

/-- The status code `run_test` records: the response status on success, `0`
when the request raised (line 97 of `comprehensive_test_suite.py`). -/
def actual_of : HttpOutcome → Nat
  | .success st _ _ => st
  | .failure _ => 0

/-- The response body `run_test` records: the first 500 characters of the
response text on success (line 93), the exception text when the request
raised (line 98). -/
def body_of : HttpOutcome → String
  | .success _ txt _ => txt.take 500
  | .failure e => e

/-- The parsed JSON body available to the validator; `none` both when the
request raised and when the body is not valid JSON. -/
def json_of : HttpOutcome → Option Json
  | .success _ _ j => j
  | .failure _ => none

/-- The report formats the three report generators can emit. -/
inductive ReportFormat where
  | json
  | html
  | markdown
deriving DecidableEq

/-- A report file written by a report generator: its path and its format. -/
structure ReportFile where
  path : String
  format : ReportFormat
deriving DecidableEq

/-! ### The HTTP API suite (`artifacts/test-results/comprehensive_test_suite.py`) -/

namespace ApiSuite

/-- Configuration constant `BASE_URL` (line 16). -/
def BASE_URL : String := "http://localhost:3082"

/-- Configuration constant `OUTPUT_DIR` (line 17). -/
def OUTPUT_DIR : String := "/home/metrik/docker/Obscurion/artifacts/test-results"

/-- The `TestResult` record (lines 26-40). -/
structure TestResult where
  test_num : Nat
  name : String
  description : String
  url : String
  expected_status : Nat
  actual_status : Nat
  response_body : String
  time_ms : ℚ
  passed : Bool
  notes : String

/-- The mutable state of a `TestSuite` object (lines 42-48). -/
structure TestSuite where
  test_num : Nat
  pass_count : Nat
  fail_count : Nat
  results : List TestResult
  timestamp : String

/-- `TestSuite.__init__` (lines 43-48): counters start at zero, the result
list empty; the timestamp string is taken from the clock. -/
def init (ts : String) : TestSuite :=
  { test_num := 0, pass_count := 0, fail_count := 0, results := [], timestamp := ts }

/-- The method dispatch of `run_test` (lines 81-88): `GET`, `POST` and
`OPTIONS` issue the request (whose outcome the environment supplies); any
other method raises `ValueError`, which the surrounding
`except requests.exceptions.RequestException` clause does not catch, so the
exception escapes `run_test`. -/
def dispatch (method : String) (oc : HttpOutcome) : Except String HttpOutcome :=
  if method = "GET" then .ok oc
  else if method = "POST" then .ok oc
  else if method = "OPTIONS" then .ok oc
  else .error ("Unsupported method: " ++ method)

/-- Whether a supplied validator accepts the (optionally parsed) JSON body:
the body must have parsed, the validator must not raise, and its result must
be truthy. -/
def validator_accepts (c : Json → Except String PyValue) (j : Option Json) : Bool :=
  match j with
  | none => false
  | some v =>
    match c v with
    | .error _ => false
    | .ok r => truthy r

/-- The response-validation block of `run_test` (lines 103-116), computing the
final `passed` flag and the `notes` string from the status-code check
`passed0`, the actual status, and the parsed body.  The validator runs only
when the status check passed, a validator was supplied and the status is 200;
a falsy result or a raised exception (including a JSON parse failure) turns
`passed` to false; a truthy string result becomes the notes. -/
def validate (check : Option (Json → Except String PyValue)) (passed0 : Bool)
    (actual_status : Nat) (j : Option Json) : Bool × String :=
  match check with
  | none => (passed0, "")
  | some c =>
    if passed0 && (actual_status == 200) then
      match j with
      | none => (false, "Validation error: body is not valid JSON")
      | some v =>
        match c v with
        | .error e => (false, "Validation error: " ++ e)
        | .ok r =>
          if truthy r then
            (true, match r with | .vstr m => m | _ => "Validation passed")
          else (false, "Response validation failed")
    else (passed0, "")

/-- `TestSuite.run_test` (lines 50-166).  The outcome of the network request
and the elapsed time are supplied by the environment.  Mirrors the source:
`test_num` is incremented first (line 67); the method dispatch may raise
(modelled as `Except.error`, in which case the mutated object is unobservable
because the exception aborts the process); otherwise the status and body are
recorded, the `passed` flag is the status comparison refined by the
validation block, the result is appended and the pass or fail counter
incremented. -/
def run_test (s : TestSuite) (name url : String) (expected_status : Nat)
    (description : String) (method : String) (oc : HttpOutcome)
    (check : Option (Json → Except String PyValue)) (elapsed_ms : ℚ) :
    Except String (TestSuite × TestResult) :=
  let s1 : TestSuite := { s with test_num := s.test_num + 1 }
  match dispatch method oc with
  | .error e => .error e
  | .ok oc =>
    let actual_status := actual_of oc
    let response_body := body_of oc
    let passed0 := actual_status == expected_status
    let pn := validate check passed0 actual_status (json_of oc)
    let r : TestResult :=
      { test_num := s1.test_num, name := name, description := description,
        url := url, expected_status := expected_status,
        actual_status := actual_status, response_body := response_body,
        time_ms := elapsed_ms, passed := pn.1, notes := pn.2 }
    let s2 : TestSuite := { s1 with results := s1.results ++ [r] }
    let s3 : TestSuite :=
      if pn.1 then { s2 with pass_count := s2.pass_count + 1 }
      else { s2 with fail_count := s2.fail_count + 1 }
    .ok (s3, r)

/-- Characters `urllib.parse.quote` leaves unescaped with its default
`safe` argument: ASCII alphanumerics, `_`, `.`, `-`, `~` and `/`. -/
def isSafeChar (c : Char) : Bool :=
  c.isAlphanum || c = '_' || c = '.' || c = '-' || c = '~' || c = '/'

/-- Upper-case hexadecimal digit for a value below 16. -/
def hexDigit (n : Nat) : Char :=
  if n < 10 then Char.ofNat (48 + n) else Char.ofNat (55 + n)

/-- Percent-encoding of one character, byte by byte of its UTF-8 encoding. -/
def quoteChar (c : Char) : String :=
  if isSafeChar c then String.singleton c
  else
    String.join ((String.toUTF8 (String.singleton c)).toList.map fun b =>
      "%" ++ String.singleton (hexDigit (b.toNat / 16))
          ++ String.singleton (hexDigit (b.toNat % 16)))

/-- `urllib.parse.quote` with the default `safe` argument, as imported and
used by the suite (line 13, lines 184, 203, 222). -/
def quote (s : String) : String :=
  String.join (s.toList.map quoteChar)

/-- The static data of one `run_test` call issued by `run_api_tests` or
`run_security_tests`: its name, URL, expected status, description, the
`auth_required` flag and whether a `check_response` validator is supplied. -/
structure TestSpec where
  name : String
  url : String
  expected_status : Nat
  description : String
  auth_required : Bool
  has_check : Bool

/-- The `sql_injections` payload table of `run_security_tests`
(lines 175-181). -/
def sql_injections : List (String × String) :=
  [("\x27 OR \x271\x27=\x271", "Basic SQL injection"),
   ("\x27; DROP TABLE Note; \x2d\x2d", "SQL drop table attempt"),
   ("\x27 OR \x271\x27=\x271\x27 \x2d\x2d", "Comment-based SQL injection"),
   ("1\x27 AND 1=1 \x2d\x2d", "Numeric SQL injection"),
   ("admin\x27\x2d\x2d", "Admin bypass attempt")]

/-- The `xss_payloads` table of `run_security_tests` (lines 194-200). -/
def xss_payloads : List (String × String) :=
  [("<script>alert(\x27xss\x27)</script>", "Basic script tag"),
   ("<img src=x onerror=\x27alert(1)\x27>", "Image onerror handler"),
   ("<svg onload=alert(\x27xss\x27)>", "SVG onload handler"),
   ("javascript:alert(\x27xss\x27)", "JavaScript protocol"),
   ("<iframe src=\x27javascript:alert(1)\x27>", "Iframe injection")]

/-- The `edge_cases` table of `run_security_tests` (lines 213-219). -/
def edge_cases : List (String × String) :=
  [("@#$%^&*()", "Special characters"),
   ("../../../../etc/passwd", "Path traversal attempt"),
   ("$\x7b7*7\x7d", "Expression injection"),
   ("\x7b\x7b7*7\x7d\x7d", "Template injection"),
   ("%00", "Null byte injection")]

/-- One security test issued by a loop of `run_security_tests`: the name and
description prefixes vary per table, the URL is the encoded search query, the
expected status is always 401, no validator is supplied. -/
def security_test_of (namePrefix descPrefix : String) (pd : String × String) : TestSpec :=
  { name := namePrefix ++ pd.2,
    url := BASE_URL ++ "/api/search?q=" ++ quote pd.1,
    expected_status := 401,
    description := descPrefix ++ pd.1,
    auth_required := true,
    has_check := false }

/-- The tests issued, in order, by `TestSuite.run_security_tests`
(lines 168-229): five SQL-injection, five XSS and five edge-case probes, each
expecting 401. -/
def security_tests : List TestSpec :=
  sql_injections.map (security_test_of "SQL Injection: " "Test SQL injection with payload: ")
  ++ xss_payloads.map (security_test_of "XSS Prevention: " "Test XSS prevention with payload: ")
  ++ edge_cases.map (security_test_of "Edge Case: " "Test edge case handling: ")

/-- A search test of `run_api_tests` with the default arguments: expected
status 401, no validator. -/
def api_search_test (name query description : String) : TestSpec :=
  { name := name, url := BASE_URL ++ query, expected_status := 401,
    description := description, auth_required := true, has_check := false }

/-- The tests issued, in order, by `TestSuite.run_api_tests` (lines 231-365):
the public health check expecting 200 with a response validator, then sixteen
search, filter and pagination probes each expecting 401. -/
def api_tests : List TestSpec :=
  { name := "Health Check", url := BASE_URL ++ "/api/health",
    expected_status := 200, description := "Verify API is running and healthy",
    auth_required := false, has_check := true }
  :: [api_search_test "Search - Basic query" "/api/search?q=test"
        "Search with query parameter only (unauthenticated)",
      api_search_test "Search - Status filter" "/api/search?status=ACTIVE"
        "Filter by ACTIVE status (unauthenticated)",
      api_search_test "Search - Multiple tags" "/api/search?tags=javascript,react"
        "Filter by multiple tags (unauthenticated)",
      api_search_test "Search - Pinned filter" "/api/search?pinned=true"
        "Filter by pinned notes only (unauthenticated)",
      api_search_test "Search - Combined filters"
        "/api/search?q=test&status=ACTIVE&tags=javascript&pinned=true"
        "Search with all filters combined (unauthenticated)",
      api_search_test "Search - Empty query with filters" "/api/search?status=ACTIVE"
        "Filter without search query (Phase 2 feature)",
      api_search_test "Search - Pagination" "/api/search?q=test&page=1&limit=20"
        "Search with pagination parameters",
      api_search_test "Search - Invalid pagination limit" "/api/search?limit=1000"
        "Search with limit exceeding maximum (should cap at 100)",
      api_search_test "Search - Negative pagination" "/api/search?page=-1&limit=-10"
        "Negative pagination values (should default to valid values)",
      api_search_test "Search - Zero pagination" "/api/search?page=0&limit=0"
        "Zero pagination values (should default to valid values)",
      api_search_test "Search - Invalid status" "/api/search?status=INVALID"
        "Invalid status value (should be ignored or rejected)",
      api_search_test "Search - Multiple status filters" "/api/search?status=ACTIVE&status=DRAFT"
        "Multiple status parameters (last one should win)",
      api_search_test "Filters - Get available filters" "/api/filters"
        "Retrieve available filter options (unauthenticated)",
      api_search_test "Search - Very long query"
        ("/api/search?q=" ++ String.pushn "" 'a' 10000)
        "10000 character query (should truncate or handle gracefully)",
      api_search_test "Search - Empty query" "/api/search?q="
        "Empty query parameter (should return empty or filtered results)",
      api_search_test "Search - Malformed encoding" "/api/search?q=%ZZ%YY"
        "Malformed URL encoding (should handle gracefully)"]

/-- The average response time of `run_performance_tests` (line 389):
`sum(times) / len(times) if times else 0`. -/
def avg_time (times : List ℚ) : ℚ :=
  if times = [] then 0 else times.sum / times.length

/-- The tally step of `TestSuite.run_performance_tests` (lines 367-404).  The
argument `times` holds the elapsed milliseconds of the requests that
succeeded (a request that raised contributes nothing, lines 385-386).  An
average below 100 passes, an average below 1000 warns but still increments
`pass_count`, and otherwise `fail_count` is incremented. -/
def run_performance_tests (s : TestSuite) (times : List ℚ) : TestSuite :=
  if avg_time times < 100 then { s with pass_count := s.pass_count + 1 }
  else if avg_time times < 1000 then { s with pass_count := s.pass_count + 1 }
  else { s with fail_count := s.fail_count + 1 }

/-- The success rate computed by `generate_report` (line 412):
`pass / (pass + fail) * 100` guarded to 0 when no test was counted. -/
def success_rate (s : TestSuite) : ℚ :=
  if 0 < s.pass_count + s.fail_count then
    ((s.pass_count : ℚ) / ((s.pass_count : ℚ) + (s.fail_count : ℚ))) * 100
  else 0

/-- The report files `TestSuite.generate_report` writes (lines 446-448 for
the JSON report; line 453 calls `generate_markdown_report`, which writes the
Markdown report at lines 459-461).  No HTML report is written by this
suite. -/
def generate_report_files (s : TestSuite) : List ReportFile :=
  [{ path := OUTPUT_DIR ++ "/api-test-report-" ++ s.timestamp ++ ".json",
     format := ReportFormat.json },
   { path := OUTPUT_DIR ++ "/api-test-report-" ++ s.timestamp ++ ".md",
     format := ReportFormat.markdown }]

/-- The value `TestSuite.generate_report` returns (line 455):
`self.fail_count == 0`. -/
def generate_report (s : TestSuite) : Bool :=
  s.fail_count == 0

/-- The exit code of `main` (line 549): `sys.exit(0 if success else 1)` on
the value returned by `generate_report`. -/
def main_exit_code (s : TestSuite) : Nat :=
  if generate_report s then 0 else 1

/-- The arguments of one `run_test` invocation together with the outcome the
environment supplies for it. -/
structure Invocation where
  name : String
  url : String
  expected_status : Nat
  description : String
  method : String
  outcome : HttpOutcome
  check : Option (Json → Except String PyValue)
  elapsed_ms : ℚ

/-- Applying one `run_test` invocation to the suite state; an invocation that
raises leaves no observable state (the exception aborts the process). -/
def apply_test (s : TestSuite) (c : Invocation) : TestSuite :=
  match run_test s c.name c.url c.expected_status c.description c.method
      c.outcome c.check c.elapsed_ms with
  | .ok p => p.1
  | .error _ => s

/-- A sequential run of `run_test` invocations, as performed by
`run_api_tests` followed by `run_security_tests`. -/
def run_sequence (s : TestSuite) (cs : List Invocation) : TestSuite :=
  cs.foldl apply_test s

end ApiSuite

/-! ### Shared state of the two browser suites -/

/-- One entry of the `tests` list that `log_test` appends in both browser
suites (`comprehensive_qa_test.py` lines 62-68, `qa_test_playwright.py`
lines 41-47); the wall-clock timestamp field is omitted as no code reads
it. -/
structure TestEntry where
  name : String
  status : String
  details : String
  evidence : String
deriving DecidableEq

/-- The parts of the `test_results` dictionary that `log_test` and
`generate_report` read in both browser suites: the summary counters and the
`tests` list.  The write-only artifact lists (`screenshots`,
`accessibility`, `console_errors`) are not modelled, as no tally or verdict
reads them. -/
structure QAState where
  total_tests : Nat
  passed : Nat
  failed : Nat
  warnings : Nat
  tests : List TestEntry

/-- The initial `test_results` value of both browser suites: all counters
zero and an empty `tests` list (`comprehensive_qa_test.py` lines 44-58,
`qa_test_playwright.py` lines 24-37). -/
def initial_state : QAState :=
  { total_tests := 0, passed := 0, failed := 0, warnings := 0, tests := [] }

/-- The spec's list of user journeys that both browser suites are said to
exercise. -/
inductive Journey where
  | signup
  | signin
  | dashboardNavigation
  | noteCreation
  | flashcardCrud
  | versionHistory
  | responsiveLayout
  | accessibilityAudit
deriving DecidableEq

/-- Modelled from the spec sentence listing the journeys: "signup, signin,
dashboard navigation, note creation, flashcard CRUD, version history,
responsive layout, accessibility audits". -/
def spec_journeys : List Journey :=
  [.signup, .signin, .dashboardNavigation, .noteCreation, .flashcardCrud,
   .versionHistory, .responsiveLayout, .accessibilityAudit]

/-! ### The Selenium suite (`artifacts/comprehensive_qa_test.py`) -/

namespace SeleniumSuite

/-- The artifacts directory constant `ARTIFACTS_DIR` (line 28). -/
def ARTIFACTS_DIR : String := "/home/metrik/docker/Obscurion/artifacts"

/-- `log_test` of the Selenium suite (lines 60-82): unconditionally append
the entry and increment `total_tests`; then increment exactly the counter
matching a `PASS`, `FAIL` or `WARN` status. -/
def log_test (s : QAState) (name status details evidence : String) : QAState :=
  let s1 : QAState :=
    { s with tests := s.tests ++ [{ name := name, status := status,
                                    details := details, evidence := evidence }],
             total_tests := s.total_tests + 1 }
  if status = "PASS" then { s1 with passed := s1.passed + 1 }
  else if status = "FAIL" then { s1 with failed := s1.failed + 1 }
  else if status = "WARN" then { s1 with warnings := s1.warnings + 1 }
  else s1

/-- The verdict computation of `generate_report` (lines 666-676), reading
only the `failed` and `warnings` counters of the summary. -/
def verdict (s : QAState) : String :=
  if 5 < s.failed then "FAIL - NEEDS MAJOR FIXES"
  else if 0 < s.failed then "WARN - NEEDS FIXES"
  else if 10 < s.warnings then "WARN - REVIEW WARNINGS"
  else "PASS - READY TO DEPLOY"

/-- The report files `generate_report` writes (lines 681-683 for the JSON
report, lines 798-800 for the HTML report).  No Markdown report is written
by this suite. -/
def generate_report_files : List ReportFile :=
  [{ path := ARTIFACTS_DIR ++ "/qa-report.json", format := ReportFormat.json },
   { path := ARTIFACTS_DIR ++ "/qa-report.html", format := ReportFormat.html }]

/-- The test phases of the Selenium suite, in the order `main`
(lines 820-882) invokes them on its nominal path (authentication succeeded
and a note was created). -/
inductive Phase where
  | healthCheck
  | protectedRoutes
  | signupPhase
  | signinPhase
  | dashboard
  | createNote
  | flashcardTests
  | versionHistoryTests
  | notesList
  | searchPage
  | responsiveDesign
  | report
deriving DecidableEq

/-- The phase sequence of `main` (lines 820-882). -/
def phases : List Phase :=
  [.healthCheck, .protectedRoutes, .signupPhase, .signinPhase, .dashboard,
   .createNote, .flashcardTests, .versionHistoryTests, .notesList,
   .searchPage, .responsiveDesign, .report]

/-- The spec journeys each Selenium phase exercises, read off the body of the
corresponding test function: `test_dashboard`, `test_notes_list` and
`test_search_page` call `check_navigation_menu` and
`run_accessibility_check` (lines 315-333, 533-565, 567-598);
`test_create_note` calls `check_navigation_menu` (line 343);
`test_responsive_design` iterates viewports and calls
`run_accessibility_check` (lines 600-642). -/
def phase_journeys : Phase → List Journey
  | .healthCheck => []
  | .protectedRoutes => []
  | .signupPhase => [.signup]
  | .signinPhase => [.signin]
  | .dashboard => [.dashboardNavigation, .accessibilityAudit]
  | .createNote => [.noteCreation, .dashboardNavigation]
  | .flashcardTests => [.flashcardCrud]
  | .versionHistoryTests => [.versionHistory]
  | .notesList => [.dashboardNavigation, .accessibilityAudit]
  | .searchPage => [.dashboardNavigation, .accessibilityAudit]
  | .responsiveDesign => [.responsiveLayout, .accessibilityAudit]
  | .report => []

/-- Whether the Selenium suite contains and invokes a phase exercising a
given journey. -/
def covers (j : Journey) : Bool :=
  phases.any fun p => (phase_journeys p).contains j

end SeleniumSuite

/-! ### The Playwright suite (`artifacts/qa_test_playwright.py`) -/

namespace PlaywrightSuite

/-- The artifacts directory constant `ARTIFACTS_DIR` (line 18). -/
def ARTIFACTS_DIR : String := "/home/metrik/docker/Obscurion/artifacts"

/-- `log_test` of the Playwright suite (lines 39-61); its body is identical
to the Selenium suite version. -/
def log_test (s : QAState) (name status details evidence : String) : QAState :=
  let s1 : QAState :=
    { s with tests := s.tests ++ [{ name := name, status := status,
                                    details := details, evidence := evidence }],
             total_tests := s.total_tests + 1 }
  if status = "PASS" then { s1 with passed := s1.passed + 1 }
  else if status = "FAIL" then { s1 with failed := s1.failed + 1 }
  else if status = "WARN" then { s1 with warnings := s1.warnings + 1 }
  else s1

/-- The verdict computation of `generate_report` (lines 511-521), identical
to the Selenium suite version. -/
def verdict (s : QAState) : String :=
  if 5 < s.failed then "FAIL - NEEDS MAJOR FIXES"
  else if 0 < s.failed then "WARN - NEEDS FIXES"
  else if 10 < s.warnings then "WARN - REVIEW WARNINGS"
  else "PASS - READY TO DEPLOY"

/-- The report files `generate_report` writes (lines 526-528 for the JSON
report, lines 684-686 for the HTML report).  No Markdown report is written
by this suite. -/
def generate_report_files : List ReportFile :=
  [{ path := ARTIFACTS_DIR ++ "/qa-report.json", format := ReportFormat.json },
   { path := ARTIFACTS_DIR ++ "/qa-report.html", format := ReportFormat.html }]

/-- The test phases of the Playwright suite, in the order `main`
(lines 702-774) invokes them on its nominal path.  `main` runs at a single
fixed 1920x1080 viewport (line 722); there is no responsive-design phase and
no function of the file performs an accessibility audit. -/
inductive Phase where
  | healthCheck
  | protectedRoutes
  | signupPhase
  | signinPhase
  | dashboard
  | createNote
  | flashcardTests
  | versionHistoryTests
  | notesList
  | searchPage
  | report
deriving DecidableEq

/-- The phase sequence of `main` (lines 702-774). -/
def phases : List Phase :=
  [.healthCheck, .protectedRoutes, .signupPhase, .signinPhase, .dashboard,
   .createNote, .flashcardTests, .versionHistoryTests, .notesList,
   .searchPage, .report]

/-- The spec journeys each Playwright phase exercises, read off the body of
the corresponding test function: `test_dashboard`, `test_create_note`,
`test_notes_list` and `test_search_page` call `check_navigation_menu`
(lines 212, 230, 431, 465); no function runs an accessibility audit or
varies the viewport. -/
def phase_journeys : Phase → List Journey
  | .healthCheck => []
  | .protectedRoutes => []
  | .signupPhase => [.signup]
  | .signinPhase => [.signin]
  | .dashboard => [.dashboardNavigation]
  | .createNote => [.noteCreation, .dashboardNavigation]
  | .flashcardTests => [.flashcardCrud]
  | .versionHistoryTests => [.versionHistory]
  | .notesList => [.dashboardNavigation]
  | .searchPage => [.dashboardNavigation]
  | .report => []

/-- Whether the Playwright suite contains and invokes a phase exercising a
given journey. -/
def covers (j : Journey) : Bool :=
  phases.any fun p => (phase_journeys p).contains j

end PlaywrightSuite

/-! ### Auxiliary definitions used by the statements -/

namespace ApiSuite

/-- The numbering invariant of the HTTP API suite state: the test counter
equals the number of recorded results and the k-th recorded result carries
test number k+1. -/
def numbering_ok (s : TestSuite) : Prop :=
  s.test_num = s.results.length ∧
  ∀ (k : Nat) (h : k < s.results.length), (s.results.get ⟨k, h⟩).test_num = k + 1

/-- A sample `run_test` invocation with the default method `GET`, used to
instantiate theorems at a concrete input. -/
def sampleInv : Invocation :=
  { name := "Search - Basic query",
    url := BASE_URL ++ "/api/search?q=test",
    expected_status := 401,
    description := "Search with query parameter only (unauthenticated)",
    method := "GET",
    outcome := HttpOutcome.success 401 "Unauthorized" none,
    check := none,
    elapsed_ms := 0 }

end ApiSuite

/-- The arguments of one `log_test` call: name, status, details, evidence. -/
abbrev LogCall : Type := String × String × String × String

/-- A sequential run of `log_test` calls against the shared `test_results`
state, as both browser suites perform during a test run (both `log_test`
bodies are identical; the Selenium version is folded). -/
def run_log (s : QAState) (cs : List LogCall) : QAState :=
  cs.foldl (fun a c => SeleniumSuite.log_test a c.1 c.2.1 c.2.2.1 c.2.2.2) s

/-- The tally invariant of the browser suites: the three status counters sum
to `total_tests`, which equals the length of the `tests` list. -/
def tally_ok (s : QAState) : Prop :=
  s.passed + s.failed + s.warnings = s.total_tests ∧
  s.total_tests = s.tests.length

/-- The behaviour of one browser test step's body, as supplied by the
environment (the browser driver and the application under test): either the
body runs to completion after issuing the given `log_test` calls, or it
raises an exception after issuing some `log_test` calls. -/
inductive StepOutcome where
  | completes (logs : List LogCall)
  | raises (logs : List LogCall) (err : String)

/-- The environment of one browser test step: whether the step's own driver
setup raises (meaningful only for the two Selenium steps that create their
own driver before their guard; `none` when there is no such setup or it
succeeds), and the behaviour of the step body. -/
structure PhaseEnv where
  setup_failure : Option String
  body : StepOutcome

/-- The try/except wrapper shared by every browser test step (for example
`comprehensive_qa_test.py` lines 185-227 for `test_signup`,
`qa_test_playwright.py` lines 128-165): the body's `log_test` calls are
applied in order; if the body raises, the `except Exception` handler records
one more FAIL entry whose details are the step's detail prefix followed by
the exception text, and the step returns normally so the run continues.
`details_head` is the static prefix of the handler's details string —
"Exception: " in every step except the health check, whose handler uses
"Health endpoint unreachable: " (`comprehensive_qa_test.py` line 183).  The
handler's auxiliary screenshot calls touch only the unmodelled artifact
lists. -/
def guarded_step (s : QAState) (handler_name details_head : String)
    (oc : StepOutcome) : QAState :=
  match oc with
  | .completes logs => run_log s logs
  | .raises logs err =>
      SeleniumSuite.log_test (run_log s logs) handler_name "FAIL"
        (details_head ++ err) ""

/-- One browser test step of a suite's `main`.  When `guarded` is true the
whole step body, including any driver setup, sits inside the step's
try/except, so `setup_failure` is never consulted (any setup is part of the
body) and every failure is caught by `guarded_step`.  When it is false the
step creates its own driver before entering the try
(`comprehensive_qa_test.py` line 646 in `test_protected_routes`, line 605 in
`test_responsive_design`), so a driver-setup failure propagates out of the
step as an uncaught exception, modelled as `Except.error`; it reaches the
top-level handler of the file (lines 884-894), which prints the error,
generates the report and exits, aborting the remaining steps. -/
def run_browser_phase (s : QAState) (guarded : Bool)
    (handler_name details_head : String) (env : PhaseEnv) :
    Except String QAState :=
  match guarded, env.setup_failure with
  | false, some err => .error err
  | _, _ => .ok (guarded_step s handler_name details_head env.body)

/-- One step descriptor of a browser suite's `main`: the guard flag and the
name and details prefix its except handler logs with. -/
structure StepDesc where
  guarded : Bool
  handler_name : String
  details_head : String

/-- A sequential run of browser test steps, as a suite's `main` performs it:
an uncaught step exception aborts the rest of the run. -/
def run_browser_phases (s : QAState) :
    List (StepDesc × PhaseEnv) → Except String QAState
  | [] => .ok s
  | (d, env) :: rest =>
    match run_browser_phase s d.guarded d.handler_name d.details_head env with
    | .error e => .error e
    | .ok s2 => run_browser_phases s2 rest

/-- The phases of the Selenium `main` that perform test steps (all phases
but the final report generation). -/
def SeleniumSuite.test_step_phases : List SeleniumSuite.Phase :=
  [.healthCheck, .protectedRoutes, .signupPhase, .signinPhase, .dashboard,
   .createNote, .flashcardTests, .versionHistoryTests, .notesList,
   .searchPage, .responsiveDesign]

/-- Whether the whole body of each Selenium step, including any driver setup
it performs, sits inside its try/except guard.  `test_protected_routes`
creates its driver at line 646 and `test_responsive_design` at line 605,
both before entering their try blocks; every other test step opens its try
as its first statement.  The report phase performs no test step and
`generate_report` has no guard at all. -/
def SeleniumSuite.fully_guarded : SeleniumSuite.Phase → Bool
  | .healthCheck => true
  | .protectedRoutes => false
  | .signupPhase => true
  | .signinPhase => true
  | .dashboard => true
  | .createNote => true
  | .flashcardTests => true
  | .versionHistoryTests => true
  | .notesList => true
  | .searchPage => true
  | .responsiveDesign => false
  | .report => false

/-- The phases of the Playwright `main` that perform test steps (all phases
but the final report generation). -/
def PlaywrightSuite.test_step_phases : List PlaywrightSuite.Phase :=
  [.healthCheck, .protectedRoutes, .signupPhase, .signinPhase, .dashboard,
   .createNote, .flashcardTests, .versionHistoryTests, .notesList,
   .searchPage]

/-- Whether the whole body of each Playwright step sits inside its
try/except guard: every test step of `qa_test_playwright.py` opens its try
as its first statement (the browser is created once in `main`, line 721, not
inside any step).  The report phase performs no test step and
`generate_report` has no guard at all. -/
def PlaywrightSuite.fully_guarded : PlaywrightSuite.Phase → Bool
  | .healthCheck => true
  | .protectedRoutes => true
  | .signupPhase => true
  | .signinPhase => true
  | .dashboard => true
  | .createNote => true
  | .flashcardTests => true
  | .versionHistoryTests => true
  | .notesList => true
  | .searchPage => true
  | .report => false

/-! ### Theorems -/

/-- C2 counterexample: the Selenium suite's `generate_report` does not emit a
Markdown report, so it is not the case that every suite emits JSON, HTML and
Markdown reports. -/
theorem C2_counterexample :
    ¬ ReportFormat.markdown ∈
        (SeleniumSuite.generate_report_files.map fun r => r.format) := by
  decide

/-- C2 (amended): each report generator emits a JSON report; the two browser
suites additionally emit an HTML report and the HTTP API suite additionally
emits a Markdown report; no suite emits all three formats. -/
theorem C2_report_formats (s : ApiSuite.TestSuite) :
    ((ApiSuite.generate_report_files s).map fun r => r.format)
        = [ReportFormat.json, ReportFormat.markdown] ∧
    (SeleniumSuite.generate_report_files.map fun r => r.format)
        = [ReportFormat.json, ReportFormat.html] ∧
    (PlaywrightSuite.generate_report_files.map fun r => r.format)
        = [ReportFormat.json, ReportFormat.html] :=
  ⟨rfl, rfl, rfl⟩

/-- C3 counterexample: responsive layout is one of the journeys the spec
lists, but no phase invoked by the Playwright suite's `main` exercises it, so
the two browser suites do not both cover every listed journey. -/
theorem C3_counterexample :
    Journey.responsiveLayout ∈ spec_journeys ∧
    PlaywrightSuite.covers Journey.responsiveLayout = false := by
  decide

/-- C3 (amended): both browser suites contain and invoke phases for signup,
signin, dashboard navigation, note creation, flashcard CRUD and version
history; the Selenium suite covers every journey the spec lists, while the
Playwright suite covers neither responsive layout nor accessibility
audits. -/
theorem C3_journey_coverage :
    ([Journey.signup, Journey.signin, Journey.dashboardNavigation,
      Journey.noteCreation, Journey.flashcardCrud, Journey.versionHistory].all
        fun j => SeleniumSuite.covers j && PlaywrightSuite.covers j) = true ∧
    (spec_journeys.all fun j => SeleniumSuite.covers j) = true ∧
    PlaywrightSuite.covers Journey.responsiveLayout = false ∧
    PlaywrightSuite.covers Journey.accessibilityAudit = false := by
  decide

/-- C7: the performance test increments `fail_count` exactly when the average
response time over the successfully issued requests is at least 1000 ms, and
increments `pass_count` in every other case; an empty sample list (no request
succeeded) yields average 0 and hence a pass. -/
theorem C7_performance_tally (s : ApiSuite.TestSuite) (times : List ℚ) :
    (ApiSuite.run_performance_tests s times).fail_count
        = (if 1000 ≤ ApiSuite.avg_time times then s.fail_count + 1
           else s.fail_count) ∧
    (ApiSuite.run_performance_tests s times).pass_count
        = (if 1000 ≤ ApiSuite.avg_time times then s.pass_count
           else s.pass_count + 1) ∧
    ApiSuite.avg_time ([] : List ℚ) = 0 := by
  unfold ApiSuite.run_performance_tests
  have h0 : ApiSuite.avg_time ([] : List ℚ) = 0 := by simp [ApiSuite.avg_time]
  rcases lt_or_le (ApiSuite.avg_time times) 1000 with h2 | h2
  · have h3 : ¬ 1000 ≤ ApiSuite.avg_time times := not_le.mpr h2
    rcases lt_or_le (ApiSuite.avg_time times) 100 with h1 | h1
    · simp [h1, h3, h0]
    · have h4 : ¬ ApiSuite.avg_time times < 100 := not_lt.mpr h1
      simp [h2, h3, h4, h0]
  · have h4 : ¬ ApiSuite.avg_time times < 100 := not_lt.mpr (by linarith)
    have h5 : ¬ ApiSuite.avg_time times < 1000 := not_lt.mpr h2
    simp [h2, h4, h5, h0]

/-- C8: both browser suites compute the final verdict from the tally by the
identical rule, determined solely by the `failed` and `warnings` counters:
fail verdict iff more than five failures, fix-warning verdict iff between one
and five failures, review-warning verdict iff no failure and more than ten
warnings, pass verdict iff no failure and at most ten warnings; the `passed`
counter never influences the verdict. -/
theorem C8_verdict_rule (s : QAState) (p : Nat) :
    SeleniumSuite.verdict s = PlaywrightSuite.verdict s ∧
    (SeleniumSuite.verdict s = "FAIL - NEEDS MAJOR FIXES" ↔ 5 < s.failed) ∧
    (SeleniumSuite.verdict s = "WARN - NEEDS FIXES" ↔
        1 ≤ s.failed ∧ s.failed ≤ 5) ∧
    (SeleniumSuite.verdict s = "WARN - REVIEW WARNINGS" ↔
        s.failed = 0 ∧ 10 < s.warnings) ∧
    (SeleniumSuite.verdict s = "PASS - READY TO DEPLOY" ↔
        s.failed = 0 ∧ s.warnings ≤ 10) ∧
    SeleniumSuite.verdict { s with passed := p } = SeleniumSuite.verdict s ∧
    PlaywrightSuite.verdict { s with passed := p } = PlaywrightSuite.verdict s := by
  unfold SeleniumSuite.verdict PlaywrightSuite.verdict
  by_cases h5 : 5 < s.failed <;>
    by_cases h0 : 0 < s.failed <;>
    by_cases h10 : 10 < s.warnings <;>
    simp [h5, h0, h10] <;>
    omega

/-- C9: the HTTP API suite's process exit code is 0 exactly when `fail_count`
is 0 at report time and 1 otherwise; `generate_report` returns the truth of
`fail_count == 0` and `main` passes it unchanged to `sys.exit`. -/
theorem C9_exit_code (s : ApiSuite.TestSuite) :
    (ApiSuite.main_exit_code s = 0 ↔ s.fail_count = 0) ∧
    ApiSuite.main_exit_code s = (if s.fail_count = 0 then 0 else 1) ∧
    (ApiSuite.generate_report s = true ↔ s.fail_count = 0) := by
  unfold ApiSuite.main_exit_code ApiSuite.generate_report
  by_cases h : s.fail_count = 0 <;> simp [h]

/-- C10: the two ratio computations of the HTTP API suite are guarded against
division by zero: the success rate is 0 when no test was counted, the average
time is 0 when no request succeeded, and in the remaining branches the
divisors are nonzero. -/
theorem C10_division_guards (s : ApiSuite.TestSuite) (times : List ℚ)
    (h : s.pass_count + s.fail_count = 0) (ht : times = []) :
    ApiSuite.success_rate s = 0 ∧
    ApiSuite.avg_time times = 0 ∧
    (∀ t : ApiSuite.TestSuite, t.pass_count + t.fail_count ≠ 0 →
        ((t.pass_count : ℚ) + (t.fail_count : ℚ)) ≠ 0) ∧
    (∀ l : List ℚ, l ≠ [] → ((l.length : ℚ) ≠ 0)) := by
  refine ⟨?_, ?_, ?_, ?_⟩
  · unfold ApiSuite.success_rate
    rw [if_neg (by omega)]
  · unfold ApiSuite.avg_time
    rw [if_pos ht]
  · intro t htc
    have : ((t.pass_count + t.fail_count : Nat) : ℚ) ≠ 0 := by
      exact_mod_cast htc
    push_cast at this
    exact this
  · intro l hl
    have : l.length ≠ 0 := by
      simpa [List.length_eq_zero] using hl
    exact_mod_cast this

/-- C10 witness: the guards evaluated at the freshly initialised suite state
and the empty sample list. -/
theorem C10_witness :
    ApiSuite.success_rate (ApiSuite.init "t") = 0 ∧
    ApiSuite.avg_time ([] : List ℚ) = 0 :=
  ⟨(C10_division_guards (ApiSuite.init "t") [] rfl rfl).1,
   (C10_division_guards (ApiSuite.init "t") [] rfl rfl).2.1⟩

/-- The final `passed` flag computed by the validation block of `run_test`:
the status-code check, refined by the validator exactly when one is supplied
and the actual status is 200. -/
theorem validate_fst (ck : Option (Json → Except String PyValue)) (a e : Nat)
    (j : Option Json) :
    (ApiSuite.validate ck (a == e) a j).1
      = ((a == e) &&
          match ck with
          | none => true
          | some c => (a != 200) || ApiSuite.validator_accepts c j) := by
  cases ck with
  | none => simp [ApiSuite.validate]
  | some c =>
    unfold ApiSuite.validate
    by_cases hae : a = e
    · by_cases h200 : a = 200
      · have hb : (a == e) = true := by simp [hae]
        have hb2 : (a == 200) = true := by simp [h200]
        have hb3 : (a != 200) = false := by simp [h200, bne]
        rw [hb, hb2, hb3]
        simp only [Bool.and_self, if_true, Bool.true_and, Bool.false_or]
        cases j with
        | none => simp [ApiSuite.validator_accepts]
        | some v =>
          cases hcv : c v with
          | error msg => simp [ApiSuite.validator_accepts, hcv]
          | ok r =>
            cases htr : truthy r <;>
              simp [ApiSuite.validator_accepts, hcv, htr]
      · have hb : (a == e) = true := by simp [hae]
        have hb2 : (a == 200) = false := by simp [h200]
        have hb3 : (a != 200) = true := by simp [h200, bne]
        rw [hb, hb2, hb3]
        simp
    · have hb : (a == e) = false := by simp [hae]
      rw [hb]
      simp

/-- C1: every test issued by `run_api_tests` and `run_security_tests` except
the health check is given expected status 401; the health check is given
expected status 200 together with a response validator; and `run_test` marks
a test as passed exactly when the actual status equals the expected status
and, when a validator is supplied and the actual status is 200, the validator
accepts the parsed JSON body. -/
theorem C1_statuses_and_pass_rule :
    ((ApiSuite.api_tests.map fun t => t.expected_status)
        = 200 :: List.replicate 16 401) ∧
    ((ApiSuite.api_tests.head?.map fun t => t.name) = some "Health Check") ∧
    ((ApiSuite.api_tests.map fun t => t.has_check)
        = true :: List.replicate 16 false) ∧
    ((ApiSuite.security_tests.map fun t => t.expected_status)
        = List.replicate 15 401) ∧
    ∀ (s : ApiSuite.TestSuite) (n u d : String) (e : Nat) (el : ℚ)
      (oc : HttpOutcome) (ck : Option (Json → Except String PyValue)),
      ((ApiSuite.run_test s n u e d "GET" oc ck el).toOption.map
          fun p => p.2.passed)
        = some ((actual_of oc == e) &&
            match ck with
            | none => true
            | some c => (actual_of oc != 200)
                || ApiSuite.validator_accepts c (json_of oc)) := by
  refine ⟨rfl, rfl, rfl, rfl, ?_⟩
  intro s n u d e el oc ck
  unfold ApiSuite.run_test
  rw [show ApiSuite.dispatch "GET" oc = .ok oc from rfl]
  dsimp only [Except.toOption, Option.map]
  rw [validate_fst]

/-- Every fully guarded browser step returns normally, whatever its
environment does. -/
theorem guarded_phase_ok (q : QAState) (name dh : String) (env : PhaseEnv) :
    ∃ q2, run_browser_phase q true name dh env = .ok q2 := by
  obtain ⟨sf, b⟩ := env
  cases sf <;> exact ⟨_, rfl⟩

/-- C5 counterexample: the claim fails in both of its assertions.  First,
`run_test` invoked with the unsupported method `DELETE` raises `ValueError`
(only `requests.exceptions.RequestException` is caught), so `run_test` does
raise for some combinations of its arguments.  Second, the Selenium step
`test_protected_routes` creates its driver before entering its try block, so
a driver-setup failure during that step is not caught inside the step: it
propagates out and aborts the run. -/
theorem C5_counterexample :
    ApiSuite.run_test (ApiSuite.init "t") "Probe" "http://localhost:3082/api/health"
        200 "desc" "DELETE" (HttpOutcome.failure "connection refused") none 0
      = Except.error "Unsupported method: DELETE" ∧
    run_browser_phase initial_state
        (SeleniumSuite.fully_guarded SeleniumSuite.Phase.protectedRoutes)
        "Protected route redirect" "Exception: "
        { setup_failure := some "chromedriver setup failed",
          body := StepOutcome.completes [] }
      = Except.error "chromedriver setup failed" :=
  ⟨rfl, rfl⟩

/-- C5 (amended): a failure raised inside a test step's try-guarded body —
which in every test step but two is the whole step — is caught inside the
step, recorded as one logged FAIL entry carrying the exception text, and
execution continues to the next step, so a run whose steps are all fully
guarded is never aborted by a step exception; every Playwright test step is
fully guarded, and every Selenium test step is fully guarded except
`test_protected_routes` and `test_responsive_design`, which create their own
driver before entering their guard, so a driver-setup failure there escapes
the step.  In the HTTP API suite, `run_test` never raises when its method is
GET, POST or OPTIONS — the only methods the suite passes — and on an HTTP
request failure it records actual status 0 with the failure text as the
response body; for any other method it raises `ValueError`, which escapes
`run_test`. -/
theorem C5_step_error_containment (s : ApiSuite.TestSuite) (n u d m : String)
    (e : Nat) (el : ℚ) (oc : HttpOutcome)
    (ck : Option (Json → Except String PyValue))
    (hm : m = "GET" ∨ m = "POST" ∨ m = "OPTIONS") :
    ((ApiSuite.run_test s n u e d m oc ck el).toOption.isSome = true) ∧
    (∀ err : String,
      ((ApiSuite.run_test s n u e d m (HttpOutcome.failure err) ck el).toOption.map
          fun p => (p.2.actual_status, p.2.response_body)) = some (0, err)) ∧
    (∀ (q : QAState) (name dh : String) (env : PhaseEnv),
      (run_browser_phase q true name dh env).toOption.isSome = true) ∧
    (∀ (q : QAState) (name dh : String) (logs : List LogCall) (err : String),
      ((run_browser_phase q true name dh
          { setup_failure := none, body := StepOutcome.raises logs err }).toOption.map
        fun q2 => (q2.tests, q2.failed))
        = some ((run_log q logs).tests
              ++ [{ name := name, status := "FAIL",
                    details := dh ++ err, evidence := "" }],
            (run_log q logs).failed + 1)) ∧
    (∀ (q : QAState) (ps : List (StepDesc × PhaseEnv)),
      (∀ p ∈ ps, p.1.guarded = true) →
      (run_browser_phases q ps).toOption.isSome = true) ∧
    ((SeleniumSuite.test_step_phases.filter
        fun p => !(SeleniumSuite.fully_guarded p))
      = [SeleniumSuite.Phase.protectedRoutes,
         SeleniumSuite.Phase.responsiveDesign]) ∧
    ((PlaywrightSuite.test_step_phases.filter
        fun p => !(PlaywrightSuite.fully_guarded p)) = []) := by
  have hd : ∀ oc2 : HttpOutcome, ApiSuite.dispatch m oc2 = .ok oc2 := by
    rcases hm with h | h | h <;> subst h <;> intro oc2 <;> rfl
  refine ⟨?_, ?_, ?_, ?_, ?_, ?_, ?_⟩
  · unfold ApiSuite.run_test
    rw [hd oc]
    rfl
  · intro err
    unfold ApiSuite.run_test
    rw [hd (HttpOutcome.failure err)]
    rfl
  · intro q name dh env
    obtain ⟨q2, hq2⟩ := guarded_phase_ok q name dh env
    rw [hq2]
    rfl
  · intro q name dh logs err
    simp [run_browser_phase, guarded_step, SeleniumSuite.log_test,
      Except.toOption]
  · intro q ps hps
    induction ps generalizing q with
    | nil => rfl
    | cons p rest ih =>
      obtain ⟨d, env⟩ := p
      have hg : d.guarded = true := hps (d, env) (List.mem_cons_self _ _)
      obtain ⟨q2, hq2⟩ := guarded_phase_ok q d.handler_name d.details_head env
      unfold run_browser_phases
      rw [hg, hq2]
      exact ih q2 fun p2 hp2 => hps p2 (List.mem_cons_of_mem _ hp2)
  · rfl
  · rfl

/-- C5 witness: a failing GET request is recorded with status 0 and the
failure text as body, via the amended theorem at a concrete input. -/
theorem C5_witness :
    ((ApiSuite.run_test (ApiSuite.init "t") "n" "u" 401 "d" "GET"
        (HttpOutcome.failure "timeout") none 0).toOption.map
      fun p => (p.2.actual_status, p.2.response_body)) = some (0, "timeout") :=
  (C5_step_error_containment (ApiSuite.init "t") "n" "u" "d" "GET" 401 0
      (HttpOutcome.failure "timeout") none (Or.inl rfl)).2.1 "timeout"

/-- One GET invocation of `run_test` appends exactly one result to the list,
increments the test counter, and numbers the new result with the incremented
counter. -/
theorem apply_test_get_shape (s : ApiSuite.TestSuite) (c : ApiSuite.Invocation)
    (hm : c.method = "GET") :
    ∃ r : ApiSuite.TestResult,
      (ApiSuite.apply_test s c).results = s.results ++ [r] ∧
      (ApiSuite.apply_test s c).test_num = s.test_num + 1 ∧
      r.test_num = s.test_num + 1 := by
  unfold ApiSuite.apply_test ApiSuite.run_test
  rw [hm]
  rw [show ApiSuite.dispatch "GET" c.outcome = .ok c.outcome from rfl]
  dsimp only
  cases hv : (ApiSuite.validate c.check (actual_of c.outcome == c.expected_status)
      (actual_of c.outcome) (json_of c.outcome)).1 <;>
    simp [hv]

/-- The numbering invariant is preserved by each GET invocation. -/
theorem numbering_ok_step {s : ApiSuite.TestSuite} {c : ApiSuite.Invocation}
    (hm : c.method = "GET") (h : ApiSuite.numbering_ok s) :
    ApiSuite.numbering_ok (ApiSuite.apply_test s c) := by
  obtain ⟨r, hres, hnum, hr⟩ := apply_test_get_shape s c hm
  obtain ⟨h1, h2⟩ := h
  constructor
  · rw [hnum, hres, List.length_append, h1]
    rfl
  · intro k hk
    rw [List.get_of_eq hres ⟨k, hk⟩]
    have hk2 : k < (s.results ++ [r]).length := hres ▸ hk
    rw [List.get_eq_getElem]
    rcases Nat.lt_or_ge k s.results.length with hlt | hge
    · rw [List.getElem_append_left hlt]
      have hk3 := h2 k hlt
      rw [List.get_eq_getElem] at hk3
      exact hk3
    · have hkeq : k = s.results.length := by
        simp only [List.length_append, List.length_singleton] at hk2
        omega
      rw [List.getElem_concat_length _ _ _ hkeq]
      rw [hr, h1, hkeq]

/-- The numbering invariant is preserved by any sequence of GET
invocations. -/
theorem run_sequence_numbering (cs : List ApiSuite.Invocation)
    (s : ApiSuite.TestSuite) (hm : ∀ c ∈ cs, c.method = "GET")
    (h : ApiSuite.numbering_ok s) :
    ApiSuite.numbering_ok (ApiSuite.run_sequence s cs) := by
  induction cs generalizing s with
  | nil => exact h
  | cons c cs ih =>
    unfold ApiSuite.run_sequence at *
    simp only [List.foldl_cons]
    exact ih _ (fun c2 hc2 => hm c2 (List.mem_cons_of_mem _ hc2))
      (numbering_ok_step (hm c (List.mem_cons_self _ _)) h)

/-- C6: starting from a fresh suite, any sequence of `run_test` calls with
the default GET method (as issued by `run_api_tests` and
`run_security_tests`) assigns consecutive test numbers in invocation order:
after the run the test counter equals the number of recorded results, and the
k-th recorded result carries test number k+1. -/
theorem C6_sequential_numbering (ts : String) (cs : List ApiSuite.Invocation)
    (hm : ∀ c ∈ cs, c.method = "GET") :
    (ApiSuite.run_sequence (ApiSuite.init ts) cs).test_num
        = (ApiSuite.run_sequence (ApiSuite.init ts) cs).results.length ∧
    ∀ (k : Nat)
      (h : k < (ApiSuite.run_sequence (ApiSuite.init ts) cs).results.length),
      ((ApiSuite.run_sequence (ApiSuite.init ts) cs).results.get ⟨k, h⟩).test_num
        = k + 1 := by
  have h0 : ApiSuite.numbering_ok (ApiSuite.init ts) := by
    constructor
    · rfl
    · intro k hk
      simp [ApiSuite.init] at hk
  exact run_sequence_numbering cs (ApiSuite.init ts) hm h0

/-- C6 witness: the numbering invariant after running the sample GET
invocation from a fresh suite. -/
theorem C6_witness :
    (ApiSuite.run_sequence (ApiSuite.init "t") [ApiSuite.sampleInv]).test_num
      = (ApiSuite.run_sequence (ApiSuite.init "t") [ApiSuite.sampleInv]).results.length :=
  (C6_sequential_numbering "t" [ApiSuite.sampleInv]
      (by intro c hc; rw [List.mem_singleton] at hc; subst hc; rfl)).1

/-- One `log_test` call with a PASS, FAIL or WARN status preserves the tally
invariant. -/
theorem log_test_tally_step (s : QAState) (n st d e : String)
    (hst : st = "PASS" ∨ st = "FAIL" ∨ st = "WARN") (h : tally_ok s) :
    tally_ok (SeleniumSuite.log_test s n st d e) := by
  obtain ⟨ha, hb⟩ := h
  rcases hst with h1 | h1 | h1 <;> subst h1 <;>
    simp [SeleniumSuite.log_test, tally_ok] <;> omega

/-- The tally invariant is preserved by any sequence of `log_test` calls
with PASS, FAIL or WARN statuses. -/
theorem run_log_tally (cs : List LogCall) (s : QAState)
    (hcs : ∀ c ∈ cs, c.2.1 = "PASS" ∨ c.2.1 = "FAIL" ∨ c.2.1 = "WARN")
    (h : tally_ok s) : tally_ok (run_log s cs) := by
  induction cs generalizing s with
  | nil => exact h
  | cons c cs ih =>
    unfold run_log at *
    simp only [List.foldl_cons]
    exact ih _ (fun c2 hc2 => hcs c2 (List.mem_cons_of_mem _ hc2))
      (log_test_tally_step _ _ _ _ _ (hcs c (List.mem_cons_self _ _)) h)

/-- C4: in both browser suites, a `log_test` call with a PASS, FAIL or WARN
status increments `total_tests` by exactly one, appends exactly one entry to
the tests list, and increments exactly the counter matching the status while
leaving the other two unchanged; consequently, after any run of logged tests
from the initial state, passed + failed + warnings equals `total_tests`,
which equals the length of the tests list. -/
theorem C4_log_test_tally (s : QAState) (n st d e : String)
    (h : st = "PASS" ∨ st = "FAIL" ∨ st = "WARN") :
    SeleniumSuite.log_test s n st d e = PlaywrightSuite.log_test s n st d e ∧
    (SeleniumSuite.log_test s n st d e).total_tests = s.total_tests + 1 ∧
    (SeleniumSuite.log_test s n st d e).tests
        = s.tests ++ [{ name := n, status := st, details := d, evidence := e }] ∧
    (st = "PASS" →
        (SeleniumSuite.log_test s n st d e).passed = s.passed + 1 ∧
        (SeleniumSuite.log_test s n st d e).failed = s.failed ∧
        (SeleniumSuite.log_test s n st d e).warnings = s.warnings) ∧
    (st = "FAIL" →
        (SeleniumSuite.log_test s n st d e).passed = s.passed ∧
        (SeleniumSuite.log_test s n st d e).failed = s.failed + 1 ∧
        (SeleniumSuite.log_test s n st d e).warnings = s.warnings) ∧
    (st = "WARN" →
        (SeleniumSuite.log_test s n st d e).passed = s.passed ∧
        (SeleniumSuite.log_test s n st d e).failed = s.failed ∧
        (SeleniumSuite.log_test s n st d e).warnings = s.warnings + 1) ∧
    ∀ cs : List LogCall,
      (∀ c ∈ cs, c.2.1 = "PASS" ∨ c.2.1 = "FAIL" ∨ c.2.1 = "WARN") →
      (run_log initial_state cs).passed + (run_log initial_state cs).failed
          + (run_log initial_state cs).warnings
        = (run_log initial_state cs).total_tests ∧
      (run_log initial_state cs).total_tests
        = (run_log initial_state cs).tests.length := by
  refine ⟨rfl, ?_, ?_, ?_, ?_, ?_, ?_⟩
  · rcases h with h1 | h1 | h1 <;> subst h1 <;> simp [SeleniumSuite.log_test]
  · rcases h with h1 | h1 | h1 <;> subst h1 <;> simp [SeleniumSuite.log_test]
  · intro h1; subst h1; simp [SeleniumSuite.log_test]
  · intro h1; subst h1; simp [SeleniumSuite.log_test]
  · intro h1; subst h1; simp [SeleniumSuite.log_test]
  · intro cs hcs
    exact run_log_tally cs initial_state hcs ⟨rfl, rfl⟩

/-- C4 witness: logging one passing test from the initial state increments
the total test count to one. -/
theorem C4_witness :
    (SeleniumSuite.log_test initial_state "API Health Check" "PASS" "" "").total_tests
      = initial_state.total_tests + 1 :=
  (C4_log_test_tally initial_state "API Health Check" "PASS" "" "" (Or.inl rfl)).2.1

end Obscurion
